import Mathlib

set_option maxRecDepth 8192

/-!
Shallow embedding of `prowler/lib/outputs/compliance/aws_well_architected/aws_well_architected.py`:
the class `AWSWellArchitected` with its two methods `transform` and
`batch_write_data_to_file`, together with theorems about them.

Modelling conventions:
* Python lists become `List`, the `finding.compliance` dict becomes an
  association list queried with `List.lookup` (mirroring `dict.get(key, [])`).
* `finding.timestamp` is a datetime rendered with `str(...)`; it is modelled as
  the opaque `String` it renders to, so `str` is the identity on it.
* `str.upper` / `str.lower` are modelled character-wise (`pyUpper` / `pyLower`);
  all strings they are applied to in this file (model field names, provider
  names) are ASCII, where the Python and Lean functions agree.
* `transform` appends to `self._data`; it is modelled as the list of rows it
  appends, starting from an empty `_data`.  The `NameError` raised when the
  manual-requirements loop reads the leaked loop variable `finding` while
  `findings` was empty is modelled by returning `none`.
* The writer's file descriptor and the rows already written to it are modelled
  explicitly in `WriterState`; a possible I/O failure raised by one of the
  `writeheader`/`writerow` calls is injected as an `Option (Nat × PyError)`
  (index of the failing write: `0` = header, `i+1` = row `i`).  A written CSV
  record is modelled as its list of field cells (the `csv` module escapes the
  delimiter inside a cell, so the cells of a record are recoverable from the
  written line).
-/

namespace AWSWellArchitected

/-- Models Python `str.upper` for ASCII strings (character-wise uppercasing). -/
def pyUpper (s : String) : String := ⟨s.data.map Char.toUpper⟩

/-- Models Python `str.lower` for ASCII strings (character-wise lowercasing). -/
def pyLower (s : String) : String := ⟨s.data.map Char.toLower⟩

/-- Models Python `str(b)` for a boolean value. -/
def pyStr (b : Bool) : String := if b then "True" else "False"

/-- One attr of a requirement, with the fields `transform` reads. -/
structure Attribute where
  Name : String
  WellArchitectedQuestionId : String
  WellArchitectedPracticeId : String
  Section : String
  SubSection : String
  LevelOfRisk : String
  AssessmentMethod : String
  Description : String
  ImplementationGuidanceUrl : String
deriving DecidableEq

/-- One requirement of the compliance framework, with the fields `transform` reads. -/
structure Requirement where
  Id : String
  Description : String
  Checks : List String
  Attributes : List Attribute
deriving DecidableEq

/-- The compliance framework definition (`ComplianceBaseModel`), with the fields `transform` reads. -/
structure ComplianceModel where
  Provider : String
  Description : String
  Requirements : List Requirement
deriving DecidableEq

/-- A finding, with the fields `transform` reads.  `compliance` models the
Python dict from compliance-framework name to the list of satisfied
requirement identifiers. -/
structure Finding where
  provider : String
  account_uid : String
  region : String
  timestamp : String
  compliance : List (String × List String)
  status : String
  status_extended : String
  resource_uid : String
  resource_name : String
  check_id : String
  muted : Bool
deriving DecidableEq

/-- The output row `AWSWellArchitectedModel`, fields in the order they are set
in the source (which is also the model's field-declaration order, hence the
order of `row.dict().keys()`). -/
structure AWSWellArchitectedModel where
  Provider : String
  Description : String
  AccountId : String
  Region : String
  AssessmentDate : String
  Requirements_Id : String
  Requirements_Description : String
  Requirements_Attributes_Name : String
  Requirements_Attributes_WellArchitectedQuestionId : String
  Requirements_Attributes_WellArchitectedPracticeId : String
  Requirements_Attributes_Section : String
  Requirements_Attributes_SubSection : String
  Requirements_Attributes_LevelOfRisk : String
  Requirements_Attributes_AssessmentMethod : String
  Requirements_Attributes_Description : String
  Requirements_Attributes_ImplementationGuidanceUrl : String
  Status : String
  StatusExtended : String
  ResourceId : String
  ResourceName : String
  CheckId : String
  Muted : Bool
deriving DecidableEq

/-- `finding.compliance.get(compliance_name, [])`. -/
def findingRequirements (finding : Finding) (complianceName : String) : List String :=
  (finding.compliance.lookup complianceName).getD []

/-- The row built for one (finding, requirement, attr) triple in the
findings loop of `transform`. -/
def findingRow (compliance : ComplianceModel) (finding : Finding)
    (requirement : Requirement) (attr : Attribute) : AWSWellArchitectedModel where
  Provider := finding.provider
  Description := compliance.Description
  AccountId := finding.account_uid
  Region := finding.region
  AssessmentDate := finding.timestamp
  Requirements_Id := requirement.Id
  Requirements_Description := requirement.Description
  Requirements_Attributes_Name := attr.Name
  Requirements_Attributes_WellArchitectedQuestionId := attr.WellArchitectedQuestionId
  Requirements_Attributes_WellArchitectedPracticeId := attr.WellArchitectedPracticeId
  Requirements_Attributes_Section := attr.Section
  Requirements_Attributes_SubSection := attr.SubSection
  Requirements_Attributes_LevelOfRisk := attr.LevelOfRisk
  Requirements_Attributes_AssessmentMethod := attr.AssessmentMethod
  Requirements_Attributes_Description := attr.Description
  Requirements_Attributes_ImplementationGuidanceUrl := attr.ImplementationGuidanceUrl
  Status := finding.status
  StatusExtended := finding.status_extended
  ResourceId := finding.resource_uid
  ResourceName := finding.resource_name
  CheckId := finding.check_id
  Muted := finding.muted

/-- The synthetic row built for one (requirement, attr) pair in the
manual-requirements loop of `transform`; `assessmentDate` is
`str(finding.timestamp)` for the leaked loop variable `finding`. -/
def manualRow (compliance : ComplianceModel) (assessmentDate : String)
    (requirement : Requirement) (attr : Attribute) : AWSWellArchitectedModel where
  Provider := pyLower compliance.Provider
  Description := compliance.Description
  AccountId := ""
  Region := ""
  AssessmentDate := assessmentDate
  Requirements_Id := requirement.Id
  Requirements_Description := requirement.Description
  Requirements_Attributes_Name := attr.Name
  Requirements_Attributes_WellArchitectedQuestionId := attr.WellArchitectedQuestionId
  Requirements_Attributes_WellArchitectedPracticeId := attr.WellArchitectedPracticeId
  Requirements_Attributes_Section := attr.Section
  Requirements_Attributes_SubSection := attr.SubSection
  Requirements_Attributes_LevelOfRisk := attr.LevelOfRisk
  Requirements_Attributes_AssessmentMethod := attr.AssessmentMethod
  Requirements_Attributes_Description := attr.Description
  Requirements_Attributes_ImplementationGuidanceUrl := attr.ImplementationGuidanceUrl
  Status := "MANUAL"
  StatusExtended := "Manual check"
  ResourceId := "manual_check"
  ResourceName := "Manual check"
  CheckId := "manual"
  Muted := false

/-- The body of the findings loop of `transform` for one finding: the nested
`for requirement` / `if requirement.Id in finding_requirements` /
`for attr` loops appending to `self._data` (here threaded as `data`). -/
def appendFindingRows (compliance : ComplianceModel) (complianceName : String)
    (finding : Finding) (data : List AWSWellArchitectedModel) : List AWSWellArchitectedModel :=
  compliance.Requirements.foldl
    (fun data requirement =>
      if (findingRequirements finding complianceName).contains requirement.Id then
        requirement.Attributes.foldl
          (fun data attr => data ++ [findingRow compliance finding requirement attr])
          data
      else data)
    data

/-- The manual-requirements loop of `transform`: for each requirement with an
empty `Checks` list, append one synthetic row per attr. -/
def appendManualRows (compliance : ComplianceModel) (assessmentDate : String)
    (data : List AWSWellArchitectedModel) : List AWSWellArchitectedModel :=
  compliance.Requirements.foldl
    (fun data requirement =>
      if requirement.Checks.isEmpty then
        requirement.Attributes.foldl
          (fun data attr => data ++ [manualRow compliance assessmentDate requirement attr])
          data
      else data)
    data

/-- `AWSWellArchitected.transform`, as the list of rows it appends to
`self._data` (starting from an empty `_data`).  After the findings loop the
Python variable `finding` still names the last element of `findings`; the
manual-requirements loop reads `finding.timestamp` from it.  If `findings` is
empty that variable is unbound, so the first manual row whose construction is
attempted raises a `NameError` (modelled by `none`); this happens exactly when
some requirement has an empty `Checks` list and a non-empty `Attributes` list. -/
def transform (findings : List Finding) (compliance : ComplianceModel)
    (complianceName : String) : Option (List AWSWellArchitectedModel) :=
  let data := findings.foldl
    (fun data finding => appendFindingRows compliance complianceName finding data) []
  match findings.getLast? with
  | some lastFinding => some (appendManualRows compliance lastFinding.timestamp data)
  | none =>
    if compliance.Requirements.any (fun r => r.Checks.isEmpty && !r.Attributes.isEmpty) then
      none
    else
      some data

/-- The rows the findings loop appends for one finding, written as the nested
product (requirements in definition order) × (attributes in definition order). -/
def rowsForFinding (compliance : ComplianceModel) (complianceName : String)
    (finding : Finding) : List AWSWellArchitectedModel :=
  compliance.Requirements.flatMap fun requirement =>
    if (findingRequirements finding complianceName).contains requirement.Id then
      requirement.Attributes.map (findingRow compliance finding requirement)
    else []

/-- The synthetic rows the manual-requirements loop appends, written as the
nested product (requirements in definition order) × (attributes in definition
order). -/
def manualRows (compliance : ComplianceModel) (assessmentDate : String) :
    List AWSWellArchitectedModel :=
  compliance.Requirements.flatMap fun requirement =>
    if requirement.Checks.isEmpty then
      requirement.Attributes.map (manualRow compliance assessmentDate requirement)
    else []

/-- Field names of `AWSWellArchitectedModel` in declaration order: the keys of
`row.dict()`, from which the writer derives the CSV header. -/
def fieldNames : List String :=
  ["Provider", "Description", "AccountId", "Region", "AssessmentDate",
   "Requirements_Id", "Requirements_Description",
   "Requirements_Attributes_Name",
   "Requirements_Attributes_WellArchitectedQuestionId",
   "Requirements_Attributes_WellArchitectedPracticeId",
   "Requirements_Attributes_Section", "Requirements_Attributes_SubSection",
   "Requirements_Attributes_LevelOfRisk",
   "Requirements_Attributes_AssessmentMethod",
   "Requirements_Attributes_Description",
   "Requirements_Attributes_ImplementationGuidanceUrl",
   "Status", "StatusExtended", "ResourceId", "ResourceName", "CheckId", "Muted"]

/-- The cells of the CSV record written for one row: the row's field values in
declaration order, rendered with `str(...)` as the `csv` module does. -/
def rowValues (row : AWSWellArchitectedModel) : List String :=
  [row.Provider, row.Description, row.AccountId, row.Region, row.AssessmentDate,
   row.Requirements_Id, row.Requirements_Description,
   row.Requirements_Attributes_Name,
   row.Requirements_Attributes_WellArchitectedQuestionId,
   row.Requirements_Attributes_WellArchitectedPracticeId,
   row.Requirements_Attributes_Section, row.Requirements_Attributes_SubSection,
   row.Requirements_Attributes_LevelOfRisk,
   row.Requirements_Attributes_AssessmentMethod,
   row.Requirements_Attributes_Description,
   row.Requirements_Attributes_ImplementationGuidanceUrl,
   row.Status, row.StatusExtended, row.ResourceId, row.ResourceName,
   row.CheckId, pyStr row.Muted]

/-- The state `batch_write_data_to_file` operates on: whether the attr
`_file_descriptor` is present (and truthy), whether that descriptor is closed,
the accumulated `_data`, and the CSV records already written to the
descriptor. -/
structure WriterState where
  fdPresent : Bool
  fdClosed : Bool
  data : List AWSWellArchitectedModel
  written : List (List String)
deriving DecidableEq

/-- A Python exception as the writer's logging observes it: class name,
traceback line number, message. -/
structure PyError where
  className : String
  lineno : Nat
  msg : String
deriving DecidableEq

/-- The diagnostic the writer logs:
`f-string of error class name [traceback line]: error message`. -/
def errorLog (e : PyError) : String :=
  e.className ++ "[" ++ toString e.lineno ++ "]: " ++ e.msg

/-- The guard of the writer:
`getattr(self, "_file_descriptor", None) and not self._file_descriptor.closed and self._data`. -/
def writerEnabled (s : WriterState) : Bool :=
  s.fdPresent && !s.fdClosed && !s.data.isEmpty

/-- The CSV records the writer emits when enabled: the header (upper-cased
field names of `self._data[0]`, all rows share the field list of
`AWSWellArchitectedModel`) followed by one record per row of `self._data`. -/
def csvRecords (s : WriterState) : List (List String) :=
  (fieldNames.map pyUpper) :: s.data.map rowValues

/-- Whether the injected failure actually fires in this call: the writer must
be enabled and the failing write index must be one of the writes performed. -/
def failureDuringWrite (fail : Option (Nat × PyError)) (s : WriterState) : Bool :=
  writerEnabled s &&
    match fail with
    | none => false
    | some (n, _) => decide (n < (csvRecords s).length)

/-- The `try` block of `batch_write_data_to_file`: when the guard holds, write
header and rows (an injected failure aborts after the records preceding the
failing write) and close the descriptor on full success.  `Except.error`
carries the raised exception together with the state at the moment it is
raised — note the descriptor is closed only after the last write succeeded. -/
def tryBlock (fail : Option (Nat × PyError)) (s : WriterState) :
    Except (PyError × WriterState) WriterState :=
  if writerEnabled s then
    match fail with
    | some (n, e) =>
      if n < (csvRecords s).length then
        Except.error (e, { s with written := s.written ++ (csvRecords s).take n })
      else
        Except.ok { s with written := s.written ++ csvRecords s, fdClosed := true }
    | none => Except.ok { s with written := s.written ++ csvRecords s, fdClosed := true }
  else
    Except.ok s

/-- `AWSWellArchitected.batch_write_data_to_file`: the `try` block wrapped in
`except Exception as error: logger.error(...)`.  It returns the final state
together with the list of logged diagnostics; the method itself returns `None`
to the caller in every case, so no exception escapes and no status is
returned. -/
def batch_write_data_to_file (fail : Option (Nat × PyError)) (s : WriterState) :
    WriterState × List String :=
  match tryBlock fail s with
  | Except.ok s' => (s', [])
  | Except.error (e, s') => (s', [errorLog e])

/-! ### Lemmas relating the imperative loops to their nested-product form -/

lemma foldl_append_flatMap {α β : Type} (g : α → List β) :
    ∀ (l : List α) (acc : List β),
      l.foldl (fun acc x => acc ++ g x) acc = acc ++ l.flatMap g := by
  intro l
  induction l with
  | nil => intro acc; simp
  | cons x xs ih => intro acc; simp [List.foldl_cons, ih]

lemma foldl_append_singleton {α β : Type} (g : α → β) :
    ∀ (l : List α) (acc : List β),
      l.foldl (fun acc x => acc ++ [g x]) acc = acc ++ l.map g := by
  intro l
  induction l with
  | nil => intro acc; simp
  | cons x xs ih => intro acc; simp [List.foldl_cons, ih]

lemma guardedLoop_eq (p : Requirement → Bool)
    (row : Requirement → Attribute → AWSWellArchitectedModel) :
    ∀ (rs : List Requirement) (data : List AWSWellArchitectedModel),
      rs.foldl
        (fun data r =>
          if p r then r.Attributes.foldl (fun data a => data ++ [row r a]) data else data)
        data
      = data ++ rs.flatMap (fun r => if p r then r.Attributes.map (row r) else []) := by
  intro rs
  induction rs with
  | nil => intro data; simp
  | cons r rs ih =>
    intro data
    cases hp : p r with
    | true =>
      simp only [List.foldl_cons, List.flatMap_cons, hp, if_true]
      rw [foldl_append_singleton, ih, List.append_assoc]
    | false =>
      simp only [List.foldl_cons, List.flatMap_cons, hp, if_false, List.nil_append]
      exact ih data

lemma appendFindingRows_eq (compliance : ComplianceModel) (complianceName : String)
    (finding : Finding) (data : List AWSWellArchitectedModel) :
    appendFindingRows compliance complianceName finding data
      = data ++ rowsForFinding compliance complianceName finding :=
  guardedLoop_eq _ _ compliance.Requirements data

lemma appendManualRows_eq (compliance : ComplianceModel) (assessmentDate : String)
    (data : List AWSWellArchitectedModel) :
    appendManualRows compliance assessmentDate data
      = data ++ manualRows compliance assessmentDate :=
  guardedLoop_eq _ _ compliance.Requirements data

lemma findings_loop_eq (compliance : ComplianceModel) (complianceName : String)
    (findings : List Finding) :
    findings.foldl (fun data finding => appendFindingRows compliance complianceName finding data) []
      = findings.flatMap (rowsForFinding compliance complianceName) := by
  have h : (fun (data : List AWSWellArchitectedModel) finding =>
      appendFindingRows compliance complianceName finding data)
      = fun data finding => data ++ rowsForFinding compliance complianceName finding := by
    funext data finding
    exact appendFindingRows_eq compliance complianceName finding data
  rw [h, foldl_append_flatMap]
  simp

/-- On any `findings` list with a last element, `transform` succeeds and the
appended rows are the per-finding blocks (findings in input order) followed by
the synthetic manual rows dated with the last finding's timestamp. -/
lemma transform_spec (findings : List Finding) (compliance : ComplianceModel)
    (complianceName : String) (lastFinding : Finding)
    (h : findings.getLast? = some lastFinding) :
    transform findings compliance complianceName
      = some (findings.flatMap (rowsForFinding compliance complianceName)
          ++ manualRows compliance lastFinding.timestamp) := by
  unfold transform
  rw [h]
  simp only [findings_loop_eq, appendManualRows_eq]

lemma length_guarded_flatMap (p : Requirement → Bool)
    (row : Requirement → Attribute → AWSWellArchitectedModel) :
    ∀ rs : List Requirement,
      (rs.flatMap fun r => if p r then r.Attributes.map (row r) else []).length
        = ((rs.filter p).map fun r => r.Attributes.length).sum := by
  intro rs
  induction rs with
  | nil => simp
  | cons r rs ih =>
    by_cases h : p r <;> simp [List.flatMap_cons, List.filter_cons, h, ih]

/-- The writer is a no-op whenever its guard is false. -/
lemma writer_noop (fail : Option (Nat × PyError)) (s : WriterState)
    (h : writerEnabled s = false) :
    batch_write_data_to_file fail s = (s, []) := by
  unfold batch_write_data_to_file tryBlock
  rw [h]
  simp

/-- On a failure-free run with the guard true, the writer appends the header
and one record per row and closes the descriptor. -/
lemma writer_success (s : WriterState) (h : writerEnabled s = true) :
    batch_write_data_to_file none s
      = ({ s with written := s.written ++ csvRecords s, fdClosed := true }, []) := by
  unfold batch_write_data_to_file tryBlock
  rw [h]
  simp

lemma transform_nil (compliance : ComplianceModel) (complianceName : String) :
    transform [] compliance complianceName = none ∨
      transform [] compliance complianceName = some [] := by
  unfold transform
  by_cases hb :
      (compliance.Requirements.any fun r => r.Checks.isEmpty && !r.Attributes.isEmpty) = true
  · left; simp [hb]
  · right; simp [hb]

/-- The framework name used by the concrete fixtures. -/
def frameworkNameX : String := "X"

/-- The CSV delimiter of the writer. -/
def delimiter : String := ";"

/-! ### Concrete fixture data (spec §8 scenario: framework "X" with requirement
R1 satisfied by the finding and manual-only requirement R2) -/

def attrA : Attribute where
  Name := "attribute-a"
  WellArchitectedQuestionId := "question-1"
  WellArchitectedPracticeId := "practice-1"
  Section := "Security"
  SubSection := "Identity"
  LevelOfRisk := "High"
  AssessmentMethod := "Automated"
  Description := "first attribute"
  ImplementationGuidanceUrl := "https://example.com/a"

def attrB : Attribute where
  Name := "attribute-b"
  WellArchitectedQuestionId := "question-2"
  WellArchitectedPracticeId := "practice-2"
  Section := "Security"
  SubSection := "Detection"
  LevelOfRisk := "Medium"
  AssessmentMethod := "Manual"
  Description := "second attribute"
  ImplementationGuidanceUrl := "https://example.com/b"

def reqR1 : Requirement where
  Id := "R1"
  Description := "requirement one"
  Checks := ["check_one"]
  Attributes := [attrA, attrB]

def reqR2 : Requirement where
  Id := "R2"
  Description := "requirement two"
  Checks := []
  Attributes := [attrA]

def frameworkX : ComplianceModel where
  Provider := "AWS"
  Description := "well architected framework"
  Requirements := [reqR1, reqR2]

/-- A framework with no manual-only requirement (R1 has a check). -/
def frameworkNoManual : ComplianceModel where
  Provider := "AWS"
  Description := "well architected framework"
  Requirements := [reqR1]

def findingOne : Finding where
  provider := "aws"
  account_uid := "123456789012"
  region := "eu-west-1"
  timestamp := "2024-01-01 00:00:00"
  compliance := [("X", ["R1"])]
  status := "PASS"
  status_extended := "all good"
  resource_uid := "arn:aws:iam::123456789012:root"
  resource_name := "root"
  check_id := "check_one"
  muted := false

/-- A finding whose compliance dict has no entry for the framework name. -/
def findingNoEntry : Finding where
  provider := "aws"
  account_uid := "123456789012"
  region := "eu-west-1"
  timestamp := "2024-01-02 00:00:00"
  compliance := []
  status := "FAIL"
  status_extended := "broken"
  resource_uid := "arn:aws:s3:::bucket"
  resource_name := "bucket"
  check_id := "check_two"
  muted := true

/-- A finding whose own status is the string "MANUAL". -/
def findingManualStatus : Finding :=
  { findingOne with status := "MANUAL", check_id := "check_one" }

/-! ### Claims about `transform` -/

/-- C1: for every call to transform and every finding, the findings loop
appends for that finding exactly `rowsForFinding` (first conjunct ties the
loop body to the block), whose length is the sum, over the requirements of the
framework whose Id appears in the finding's satisfied-requirement list, of the
number of attributes of that requirement; a finding whose compliance map has
no entry for the framework name contributes exactly zero rows and causes no
error. -/
theorem C1_per_finding_row_count (compliance : ComplianceModel)
    (complianceName : String) (finding : Finding) :
    (∀ data, appendFindingRows compliance complianceName finding data
        = data ++ rowsForFinding compliance complianceName finding) ∧
    (rowsForFinding compliance complianceName finding).length
      = ((compliance.Requirements.filter fun r =>
            (findingRequirements finding complianceName).contains r.Id).map
          fun r => r.Attributes.length).sum ∧
    (finding.compliance.lookup complianceName = none →
      rowsForFinding compliance complianceName finding = []) := by
  refine ⟨fun data => appendFindingRows_eq _ _ _ data,
    length_guarded_flatMap _ _ _, fun hnone => ?_⟩
  unfold rowsForFinding findingRequirements
  rw [hnone]
  simp

/-- Witness for C1: the finding with no compliance entry yields zero rows, and
the spec-§8 finding yields the two rows of requirement R1. -/
theorem C1_witness :
    rowsForFinding frameworkX frameworkNameX findingNoEntry = [] ∧
    (rowsForFinding frameworkX frameworkNameX findingOne).length = 2 :=
  ⟨(C1_per_finding_row_count frameworkX frameworkNameX findingNoEntry).2.2 rfl,
   by rw [(C1_per_finding_row_count frameworkX frameworkNameX findingOne).2.1]; decide⟩

/-- C2: whenever the findings sequence has a last element, transform succeeds,
the synthetic manual rows come from exactly the requirements with an empty
Checks list (one row per attribute, independent of the findings), and each
such row has Status "MANUAL", StatusExtended "Manual check", ResourceId
"manual_check", ResourceName "Manual check", CheckId "manual", Muted false,
empty AccountId and Region, Provider the framework's provider lower-cased,
and AssessmentDate the last finding's timestamp. -/
theorem C2_manual_rows (findings : List Finding) (compliance : ComplianceModel)
    (complianceName : String) (lastFinding : Finding)
    (h : findings.getLast? = some lastFinding) :
    transform findings compliance complianceName
      = some (findings.flatMap (rowsForFinding compliance complianceName)
          ++ manualRows compliance lastFinding.timestamp) ∧
    manualRows compliance lastFinding.timestamp
      = compliance.Requirements.flatMap (fun r =>
          if r.Checks.isEmpty then
            r.Attributes.map (manualRow compliance lastFinding.timestamp r)
          else []) ∧
    (∀ r : Requirement,
      (if r.Checks.isEmpty then
        r.Attributes.map (manualRow compliance lastFinding.timestamp r)
      else []).length = if r.Checks.isEmpty then r.Attributes.length else 0) ∧
    (∀ r a,
      (manualRow compliance lastFinding.timestamp r a).Status = "MANUAL" ∧
      (manualRow compliance lastFinding.timestamp r a).StatusExtended = "Manual check" ∧
      (manualRow compliance lastFinding.timestamp r a).ResourceId = "manual_check" ∧
      (manualRow compliance lastFinding.timestamp r a).ResourceName = "Manual check" ∧
      (manualRow compliance lastFinding.timestamp r a).CheckId = "manual" ∧
      (manualRow compliance lastFinding.timestamp r a).Muted = false ∧
      (manualRow compliance lastFinding.timestamp r a).AccountId = "" ∧
      (manualRow compliance lastFinding.timestamp r a).Region = "" ∧
      (manualRow compliance lastFinding.timestamp r a).Provider
        = pyLower compliance.Provider ∧
      (manualRow compliance lastFinding.timestamp r a).AssessmentDate
        = lastFinding.timestamp) := by
  refine ⟨transform_spec findings compliance complianceName lastFinding h, rfl,
    fun r => ?_, fun r a =>
      ⟨rfl, rfl, rfl, rfl, rfl, rfl, rfl, rfl, rfl, rfl⟩⟩
  cases hr : r.Checks.isEmpty <;> simp [hr]

/-- Witness for C2 at the spec-§8 scenario. -/
theorem C2_witness :
    transform [findingOne] frameworkX frameworkNameX
      = some ([findingOne].flatMap (rowsForFinding frameworkX frameworkNameX)
          ++ manualRows frameworkX findingOne.timestamp) ∧
    (manualRow frameworkX findingOne.timestamp reqR2 attrA).Status = "MANUAL" :=
  ⟨(C2_manual_rows [findingOne] frameworkX frameworkNameX findingOne rfl).1,
   ((C2_manual_rows [findingOne] frameworkX frameworkNameX findingOne rfl).2.2.2 reqR2 attrA).1⟩

/-- C3: whenever the findings sequence has a last element, the appended rows
are exactly the lexicographic product (findings in input order) ×
(requirements in framework-definition order) × (attributes in definition
order), followed by all synthetic manual rows in requirement-definition then
attribute-definition order. -/
theorem C3_row_ordering (findings : List Finding) (compliance : ComplianceModel)
    (complianceName : String) (lastFinding : Finding)
    (h : findings.getLast? = some lastFinding) :
    transform findings compliance complianceName
      = some ((findings.flatMap fun finding =>
            compliance.Requirements.flatMap fun requirement =>
              if (findingRequirements finding complianceName).contains requirement.Id then
                requirement.Attributes.map (findingRow compliance finding requirement)
              else [])
          ++ compliance.Requirements.flatMap fun requirement =>
              if requirement.Checks.isEmpty then
                requirement.Attributes.map (manualRow compliance lastFinding.timestamp requirement)
              else []) :=
  transform_spec findings compliance complianceName lastFinding h

/-- Witness for C3: the spec-§8 scenario yields R1's two rows (attributes in
definition order) followed by R2's manual row. -/
theorem C3_witness :
    transform [findingOne] frameworkX frameworkNameX
      = some [findingRow frameworkX findingOne reqR1 attrA,
              findingRow frameworkX findingOne reqR1 attrB,
              manualRow frameworkX findingOne.timestamp reqR2 attrA] := by
  rw [C3_row_ordering [findingOne] frameworkX frameworkNameX findingOne rfl]
  decide

/-- C5: on an empty findings sequence, if some requirement has an empty Checks
list and a non-empty Attributes list, transform fails (the leaked loop
variable holding the last finding is unbound when the manual row's
AssessmentDate is synthesized) rather than producing rows normally. -/
theorem C5_empty_findings_failure (compliance : ComplianceModel) (complianceName : String)
    (h : ∃ r ∈ compliance.Requirements, r.Checks = [] ∧ r.Attributes ≠ []) :
    transform [] compliance complianceName = none := by
  have hany :
      (compliance.Requirements.any fun r => r.Checks.isEmpty && !r.Attributes.isEmpty) = true := by
    rcases h with ⟨r, hmem, hchecks, hattrs⟩
    refine List.any_eq_true.mpr ⟨r, hmem, ?_⟩
    have h2 : r.Attributes.isEmpty = false := by
      cases hl : r.Attributes with
      | nil => exact absurd hl hattrs
      | cons a as => rfl
    simp [hchecks, h2]
  unfold transform
  simp [hany]

/-- Witness for C5: framework "X" has the manual-only requirement R2 with one
attribute, so transform on an empty findings list fails. -/
theorem C5_witness : transform [] frameworkX frameworkNameX = none :=
  C5_empty_findings_failure frameworkX frameworkNameX ⟨reqR2, by decide, rfl, by decide⟩

/-- C9 counterexample: a finding whose own status is the string "MANUAL"
produces a finding-derived row with Status "MANUAL" although the
manual-requirements pass contributes nothing (the framework has no requirement
with an empty Checks list), so a Status "MANUAL" row is not necessarily
synthetic. -/
theorem C9_counterexample :
    transform [findingManualStatus] frameworkNoManual frameworkNameX
      = some [findingRow frameworkNoManual findingManualStatus reqR1 attrA,
              findingRow frameworkNoManual findingManualStatus reqR1 attrB] ∧
    (findingRow frameworkNoManual findingManualStatus reqR1 attrA).Status = "MANUAL" ∧
    [findingManualStatus].getLast? = some findingManualStatus ∧
    manualRows frameworkNoManual findingManualStatus.timestamp = [] := by
  refine ⟨?_, rfl, rfl, rfl⟩
  decide

/-- C9 amended: provided no input finding has status "MANUAL", every appended
row with Status "MANUAL" is a synthetic row of the manual-requirements pass. -/
theorem C9_amended_manual_rows_synthetic (findings : List Finding)
    (compliance : ComplianceModel) (complianceName : String)
    (out : List AWSWellArchitectedModel)
    (hstatus : ∀ f ∈ findings, f.status ≠ "MANUAL")
    (h : transform findings compliance complianceName = some out) :
    ∀ row ∈ out, row.Status = "MANUAL" →
      ∃ lastFinding, findings.getLast? = some lastFinding ∧
        row ∈ manualRows compliance lastFinding.timestamp := by
  cases hl : findings.getLast? with
  | none =>
    have hnil : findings = [] := List.getLast?_eq_none_iff.mp hl
    subst hnil
    rcases transform_nil compliance complianceName with h0 | h0 <;> rw [h0] at h
    · exact absurd h (by simp)
    · have hout : out = [] := by injection h with h'; exact h'.symm
      subst hout
      intro row hrow
      exact absurd hrow (List.not_mem_nil row)
  | some lastFinding =>
    rw [transform_spec findings compliance complianceName lastFinding hl] at h
    have hout : out = findings.flatMap (rowsForFinding compliance complianceName)
        ++ manualRows compliance lastFinding.timestamp := by
      injection h with h'; exact h'.symm
    subst hout
    intro row hrow hst
    refine ⟨lastFinding, rfl, ?_⟩
    rcases List.mem_append.mp hrow with hf | hm
    · exfalso
      rcases List.mem_flatMap.mp hf with ⟨f, hfmem, hrow2⟩
      unfold rowsForFinding at hrow2
      rcases List.mem_flatMap.mp hrow2 with ⟨r, _, hrow3⟩
      cases hc : (findingRequirements f complianceName).contains r.Id with
      | true =>
        simp only [hc, if_true] at hrow3
        rcases List.mem_map.mp hrow3 with ⟨a, _, hfr⟩
        have hrs : row.Status = f.status := by rw [← hfr]; rfl
        exact hstatus f hfmem (by rw [← hrs]; exact hst)
      | false => rw [hc] at hrow3; simp at hrow3
    · exact hm

/-- Witness for the amended C9: in the spec-§8 scenario (whose only finding
has status "PASS") the single Status "MANUAL" row lies in the synthetic
manual-row block. -/
theorem C9_witness :
    ∃ lastFinding, [findingOne].getLast? = some lastFinding ∧
      manualRow frameworkX findingOne.timestamp reqR2 attrA
        ∈ manualRows frameworkX lastFinding.timestamp :=
  C9_amended_manual_rows_synthetic [findingOne] frameworkX frameworkNameX
    [findingRow frameworkX findingOne reqR1 attrA,
     findingRow frameworkX findingOne reqR1 attrB,
     manualRow frameworkX findingOne.timestamp reqR2 attrA]
    (by decide) (by decide)
    (manualRow frameworkX findingOne.timestamp reqR2 attrA)
    (by decide) rfl

/-! ### Writer fixtures -/

def rowOne : AWSWellArchitectedModel := findingRow frameworkX findingOne reqR1 attrA

def errOne : PyError where
  className := "ValueError"
  lineno := 127
  msg := "bad write"

/-- An open descriptor with one accumulated row. -/
def sOpen : WriterState where
  fdPresent := true
  fdClosed := false
  data := [rowOne]
  written := []

/-- An already-closed descriptor with one accumulated row. -/
def sShut : WriterState where
  fdPresent := true
  fdClosed := true
  data := [rowOne]
  written := []

/-! ### Claims about `batch_write_data_to_file` -/

/-- C4 counterexample: writing begins (descriptor present and open, rows
non-empty) and a failure fires on the header write, yet after the call the
descriptor is still open — `close()` sits inside the `try` after the writes,
so the error path does not release it. -/
theorem C4_counterexample :
    sOpen.fdPresent = true ∧ sOpen.fdClosed = false ∧ sOpen.data ≠ [] ∧
    failureDuringWrite (some (0, errOne)) sOpen = true ∧
    (batch_write_data_to_file (some (0, errOne)) sOpen).1.fdClosed = false := by
  refine ⟨rfl, rfl, by decide, by decide, by decide⟩

/-- C4 amended: when writing begins, the descriptor is closed by the time the
call returns on every path on which no failure occurs during header or row
writing; on a failure mid-write the handler returns with the descriptor in its
previous (open) state. -/
theorem C4_amended_close_on_success (fail : Option (Nat × PyError)) (s : WriterState)
    (h : writerEnabled s = true) :
    (failureDuringWrite fail s = false →
      (batch_write_data_to_file fail s).1.fdClosed = true) ∧
    (failureDuringWrite fail s = true →
      (batch_write_data_to_file fail s).1.fdClosed = s.fdClosed) := by
  cases fail with
  | none =>
    constructor
    · intro _
      rw [writer_success s h]
    · intro hf
      unfold failureDuringWrite at hf
      simp [h] at hf
  | some ne =>
    obtain ⟨n, e⟩ := ne
    by_cases hn : n < (csvRecords s).length
    · constructor
      · intro hf
        exfalso
        unfold failureDuringWrite at hf
        rw [h] at hf
        simp [hn] at hf
      · intro _
        unfold batch_write_data_to_file tryBlock
        rw [h]
        simp [hn]
    · constructor
      · intro _
        unfold batch_write_data_to_file tryBlock
        rw [h]
        simp [hn]
      · intro hf
        exfalso
        unfold failureDuringWrite at hf
        rw [h] at hf
        simp [hn] at hf

/-- Witness for the amended C4: a clean write closes the descriptor; a header
failure leaves it as it was. -/
theorem C4_witness :
    (batch_write_data_to_file none sOpen).1.fdClosed = true ∧
    (batch_write_data_to_file (some (0, errOne)) sOpen).1.fdClosed = sOpen.fdClosed :=
  ⟨(C4_amended_close_on_success none sOpen rfl).1 (by decide),
   (C4_amended_close_on_success (some (0, errOne)) sOpen rfl).2 (by decide)⟩

/-- C6: every failure raised during header or row writing is caught by the
writer, which returns normally (a plain state/log pair — no exception escapes
and no status value is produced) after logging exactly one diagnostic
concatenating the error's class name, its traceback line number in brackets,
and its message. -/
theorem C6_failure_logged (fail : Option (Nat × PyError)) (s : WriterState)
    (e : PyError) (s' : WriterState)
    (h : tryBlock fail s = Except.error (e, s')) :
    batch_write_data_to_file fail s
      = (s', [e.className ++ "[" ++ toString e.lineno ++ "]: " ++ e.msg]) := by
  unfold batch_write_data_to_file
  rw [h]
  rfl

/-- Witness for C6: the injected header failure is logged as
`ValueError[127]: bad write` and the call returns normally. -/
theorem C6_witness :
    batch_write_data_to_file (some (0, errOne)) sOpen
      = (sOpen, ["ValueError[127]: bad write"]) := by
  rw [C6_failure_logged (some (0, errOne)) sOpen errOne sOpen rfl]
  decide

/-- C7: if the descriptor is absent, or already closed, or the accumulated
row sequence is empty, the writer writes nothing, changes nothing, logs
nothing and raises no error. -/
theorem C7_noop (fail : Option (Nat × PyError)) (s : WriterState)
    (h : s.fdPresent = false ∨ s.fdClosed = true ∨ s.data = []) :
    batch_write_data_to_file fail s = (s, []) := by
  apply writer_noop
  rcases h with h | h | h <;> simp [writerEnabled, h]

/-- Witness for C7: a call on an already-closed descriptor is a no-op. -/
theorem C7_witness : batch_write_data_to_file none sShut = (sShut, []) :=
  C7_noop none sShut (Or.inr (Or.inl rfl))

/-- C8: on a successful write with non-empty rows, the first record written is
the upper-cased field names of the row model in declaration order (joined by
";" this is the concrete header line), exactly one further record is written
per accumulated row, and every record has the same number of fields as the
header. -/
theorem C8_header_and_fields (s : WriterState) (h : writerEnabled s = true) :
    batch_write_data_to_file none s
      = ({ s with
            written := s.written ++ ((fieldNames.map pyUpper) :: s.data.map rowValues),
            fdClosed := true }, []) ∧
    String.intercalate delimiter (fieldNames.map pyUpper)
      = "PROVIDER;DESCRIPTION;ACCOUNTID;REGION;ASSESSMENTDATE;REQUIREMENTS_ID;REQUIREMENTS_DESCRIPTION;REQUIREMENTS_ATTRIBUTES_NAME;REQUIREMENTS_ATTRIBUTES_WELLARCHITECTEDQUESTIONID;REQUIREMENTS_ATTRIBUTES_WELLARCHITECTEDPRACTICEID;REQUIREMENTS_ATTRIBUTES_SECTION;REQUIREMENTS_ATTRIBUTES_SUBSECTION;REQUIREMENTS_ATTRIBUTES_LEVELOFRISK;REQUIREMENTS_ATTRIBUTES_ASSESSMENTMETHOD;REQUIREMENTS_ATTRIBUTES_DESCRIPTION;REQUIREMENTS_ATTRIBUTES_IMPLEMENTATIONGUIDANCEURL;STATUS;STATUSEXTENDED;RESOURCEID;RESOURCENAME;CHECKID;MUTED" ∧
    (s.data.map rowValues).length = s.data.length ∧
    (∀ rec ∈ (fieldNames.map pyUpper) :: s.data.map rowValues,
      rec.length = (fieldNames.map pyUpper).length) := by
  refine ⟨writer_success s h, by decide, by simp, ?_⟩
  intro rec hrec
  rcases List.mem_cons.mp hrec with rfl | hm
  · rfl
  · rcases List.mem_map.mp hm with ⟨row, _, rfl⟩
    rfl

/-- Witness for C8 on the one-row open-descriptor state. -/
theorem C8_witness :
    batch_write_data_to_file none sOpen
      = ({ sOpen with
            written := sOpen.written ++ ((fieldNames.map pyUpper) :: sOpen.data.map rowValues),
            fdClosed := true }, []) ∧
    (sOpen.data.map rowValues).length = sOpen.data.length :=
  ⟨(C8_header_and_fields sOpen rfl).1, (C8_header_and_fields sOpen rfl).2.2.1⟩

/-- C10: after a successful write the descriptor is closed and `_data` is left
unmodified, so a second call — with or without an injected failure — writes
nothing and logs nothing: the accumulated rows are serialized to the
destination at most once across repeated calls. -/
theorem C10_write_at_most_once (s : WriterState) (h : writerEnabled s = true) :
    (batch_write_data_to_file none s).1.fdClosed = true ∧
    (batch_write_data_to_file none s).1.data = s.data ∧
    ∀ fail2, batch_write_data_to_file fail2 (batch_write_data_to_file none s).1
      = ((batch_write_data_to_file none s).1, []) := by
  rw [writer_success s h]
  refine ⟨rfl, rfl, fun fail2 => ?_⟩
  apply writer_noop
  simp [writerEnabled]

/-- Witness for C10: writing once from `sOpen` closes the descriptor and a
repeat call does nothing. -/
theorem C10_witness :
    (batch_write_data_to_file none sOpen).1.fdClosed = true ∧
    batch_write_data_to_file none (batch_write_data_to_file none sOpen).1
      = ((batch_write_data_to_file none sOpen).1, []) :=
  ⟨(C10_write_at_most_once sOpen rfl).1, (C10_write_at_most_once sOpen rfl).2.2 none⟩

end AWSWellArchitected
